import Mathlib

set_option maxRecDepth 100000

/-!
Verification development for the libudf UDF (Universal Disk Format) reader.

The Rust sources (src/lib.rs, src/volume.rs, src/file.rs) are shallowly
embedded here.  Conventions of the embedding:

* Bytes are `Nat` values (< 256 for every byte produced by a real read).
* Machine integers are `Nat` with explicit wrap-around `% 2^w` at every
  operation where Rust release-build arithmetic wraps (u32 additions, the
  u32 multiplication by the block size, and the usize subtraction in the
  unrecognized-partition-map payload count).
* Every nom parser `T::parse` becomes a `Parser T`: a function from the
  input byte list to `Option (remaining bytes × value)`; `none` is a nom
  parse error (both `Error` and `Failure` collapse to `none`, which is
  faithful for all uses in this crate because callers only distinguish
  success from failure).
* Functions returning `Result<_, Box<dyn Error>>` become `RRes`, with an
  explicit constructor for each error string of the source; an explicit
  `RRes.abort` constructor models a Rust process abort (an `unwrap`
  failure).
* The `Read + Seek` byte source is modelled as `disk : Nat -> List Nat`,
  mapping a sector number to the 2048-byte block read at byte offset
  `sector * 2048`; every seek performed by the crate is block-aligned, so
  this loses nothing.
-/

/-- Result of a nom-style parser: `none` on parse error, otherwise the
remaining input together with the parsed value. -/
structure Parser (α : Type) where
  run : List Nat → Option (List Nat × α)

instance : Monad Parser where
  pure a := ⟨fun i => some (i, a)⟩
  bind p f := ⟨fun i =>
    match p.run i with
    | some (r, a) => (f a).run r
    | none => none⟩

/-- Primitive: one little-endian byte (nom `le_u8`). -/
def u8P : Parser Nat :=
  ⟨fun i =>
    match i with
    | b :: r => some (r, b)
    | [] => none⟩

/-- Primitive: little-endian u16 (nom `le_u16`). -/
def u16P : Parser Nat :=
  ⟨fun i =>
    match i with
    | b0 :: b1 :: r => some (r, b0 + 256 * b1)
    | _ => none⟩

/-- Primitive: little-endian u32 (nom `le_u32`). -/
def u32P : Parser Nat :=
  ⟨fun i =>
    match i with
    | b0 :: b1 :: b2 :: b3 :: r =>
        some (r, b0 + 256 * b1 + 65536 * b2 + 16777216 * b3)
    | _ => none⟩

/-- Primitive: little-endian u64 (nom `le_u64`). -/
def u64P : Parser Nat :=
  ⟨fun i =>
    match i with
    | b0 :: b1 :: b2 :: b3 :: b4 :: b5 :: b6 :: b7 :: r =>
        some (r, b0 + 256 * b1 + 65536 * b2 + 16777216 * b3
          + 4294967296 * b4 + 1099511627776 * b5
          + 281474976710656 * b6 + 72057594037927936 * b7)
    | _ => none⟩

/-- Primitive: little-endian i16 as a signed integer (two's complement). -/
def i16P : Parser Int :=
  ⟨fun i =>
    match i with
    | b0 :: b1 :: r =>
        let v := b0 + 256 * b1
        some (r, if v < 32768 then (v : Int) else (v : Int) - 65536)
    | _ => none⟩

/-- Primitive: take exactly `n` raw bytes (a nom byte array field, or a
nom `Count` of u8 elements). -/
def takeP (n : Nat) : Parser (List Nat) :=
  ⟨fun i => if n ≤ i.length then some (i.drop n, i.take n) else none⟩

/-- Primitive: succeed consuming nothing when the condition holds, fail
otherwise (a nom `Verify` attribute). -/
def pverify (c : Prop) [Decidable c] : Parser Unit :=
  ⟨fun i => if c then some (i, ()) else none⟩

/-- Primitive: always fail (an unmatched nom selector or enum value). -/
def pfail {α : Type} : Parser α :=
  ⟨fun _ => none⟩

/-- Primitive: `n` repetitions of a parser (nom `Count` with a non-byte
element type). -/
def countP {α : Type} (p : Parser α) : Nat → Parser (List α)
  | 0 => pure []
  | n + 1 => do
    let a ← p
    let as ← countP p n
    pure (a :: as)

/-! ## Data model of src/volume.rs -/

/-- Logical sector number (u32), as in src/volume.rs. -/
abbrev LSN := Nat

/-- Extent allocation descriptor: byte length and logical-sector location
(src/volume.rs `ExtentAD`). -/
structure ExtentAD where
  len : Nat
  loc : LSN
  deriving DecidableEq

def ExtentAD.parse : Parser ExtentAD := do
  let len ← u32P
  let loc ← u32P
  pure ⟨len, loc⟩

/-- Descriptor tag identifier (src/volume.rs `TagID`, a u16 enum). -/
inductive TagID where
  | UNK | PVD | AVD | VD | IUVD | PD | LVD | USD | TD | LVID
  deriving DecidableEq

/-- Dispatch of a decoded u16 to a `TagID` value; any value outside the
enum range is a nom parse error. -/
def tagIdOf (v : Nat) : Parser TagID :=
  match v with
  | 0 => pure .UNK
  | 1 => pure .PVD
  | 2 => pure .AVD
  | 3 => pure .VD
  | 4 => pure .IUVD
  | 5 => pure .PD
  | 6 => pure .LVD
  | 7 => pure .USD
  | 8 => pure .TD
  | 9 => pure .LVID
  | _ => pfail

def TagID.parse : Parser TagID := u16P >>= tagIdOf

/-- Common 16-byte descriptor tag header (src/volume.rs `Tag`). -/
structure Tag where
  tag_id : TagID
  version : Nat
  checksum : Nat
  res : Nat
  serial : Nat
  desc_crc : Nat
  desc_crc_len : Nat
  tag_loc : LSN
  deriving DecidableEq

def Tag.parse : Parser Tag := do
  let tag_id ← TagID.parse
  let version ← u16P
  let checksum ← u8P
  let res ← u8P
  let serial ← u16P
  let desc_crc ← u16P
  let desc_crc_len ← u16P
  let tag_loc ← u32P
  pure ⟨tag_id, version, checksum, res, serial, desc_crc, desc_crc_len, tag_loc⟩

/-- Character-set specification (src/volume.rs `CharSpec`). -/
structure CharSpec where
  cs_type : Nat
  cs_info : List Nat
  deriving DecidableEq

def CharSpec.parse : Parser CharSpec := do
  let cs_type ← u8P
  let cs_info ← takeP 63
  pure ⟨cs_type, cs_info⟩

/-- Registered identifier (src/volume.rs `RegID`). -/
structure RegID where
  flags : Nat
  ident : List Nat
  ident_suffix : List Nat
  deriving DecidableEq

def RegID.parse : Parser RegID := do
  let flags ← u8P
  let ident ← takeP 23
  let ident_suffix ← takeP 8
  pure ⟨flags, ident, ident_suffix⟩

/-- On-disk timestamp (src/volume.rs `Timestamp`); the year is an i16. -/
structure Timestamp where
  type_tz : Nat
  year : Int
  month : Nat
  day : Nat
  hour : Nat
  minute : Nat
  second : Nat
  centisecond : Nat
  centims : Nat
  microsecond : Nat
  deriving DecidableEq

def Timestamp.parse : Parser Timestamp := do
  let type_tz ← u16P
  let year ← i16P
  let month ← u8P
  let day ← u8P
  let hour ← u8P
  let minute ← u8P
  let second ← u8P
  let centisecond ← u8P
  let centims ← u8P
  let microsecond ← u8P
  pure ⟨type_tz, year, month, day, hour, minute, second, centisecond, centims, microsecond⟩

/-- Primary Volume Descriptor (src/volume.rs `PVD`); the nom `Verify`
attribute on `tag` rejects any block whose tag id is not `PVD`. -/
structure PVD where
  tag : Tag
  vds_num : Nat
  pvd_num : Nat
  vol_ident : List Nat
  vol_seq_num : Nat
  max_vol_seq_num : Nat
  ic_level : Nat
  max_ic_level : Nat
  charset : Nat
  max_charset : Nat
  vol_set_ident : List Nat
  desc_charset : CharSpec
  expl_charset : CharSpec
  vol_abstract : ExtentAD
  vol_copyright : ExtentAD
  appid : RegID
  record_time : Timestamp
  impl_id : RegID
  impl_use : List Nat
  predec_vds : LSN
  flags : Nat
  res : List Nat
  deriving DecidableEq

def PVD.parse : Parser PVD := do
  let tag ← Tag.parse
  pverify (tag.tag_id = TagID.PVD)
  let vds_num ← u32P
  let pvd_num ← u32P
  let vol_ident ← takeP 32
  let vol_seq_num ← u16P
  let max_vol_seq_num ← u16P
  let ic_level ← u16P
  let max_ic_level ← u16P
  let charset ← u32P
  let max_charset ← u32P
  let vol_set_ident ← takeP 128
  let desc_charset ← CharSpec.parse
  let expl_charset ← CharSpec.parse
  let vol_abstract ← ExtentAD.parse
  let vol_copyright ← ExtentAD.parse
  let appid ← RegID.parse
  let record_time ← Timestamp.parse
  let impl_id ← RegID.parse
  let impl_use ← takeP 64
  let predec_vds ← u32P
  let flags ← u16P
  let res ← takeP 22
  pure ⟨tag, vds_num, pvd_num, vol_ident, vol_seq_num, max_vol_seq_num, ic_level,
    max_ic_level, charset, max_charset, vol_set_ident, desc_charset, expl_charset,
    vol_abstract, vol_copyright, appid, record_time, impl_id, impl_use, predec_vds,
    flags, res⟩

/-- Anchor Volume Descriptor Pointer (src/volume.rs `AVD`). -/
structure AVD where
  tag : Tag
  main_vds : ExtentAD
  reserve_vds : ExtentAD
  res : List Nat
  deriving DecidableEq

def AVD.parse : Parser AVD := do
  let tag ← Tag.parse
  pverify (tag.tag_id = TagID.AVD)
  let main_vds ← ExtentAD.parse
  let reserve_vds ← ExtentAD.parse
  let res ← takeP 480
  pure ⟨tag, main_vds, reserve_vds, res⟩

/-- Partition Descriptor (src/volume.rs `PD`). -/
structure PD where
  tag : Tag
  vds_num : Nat
  part_flags : Nat
  part_num : Nat
  part_cont : RegID
  part_cont_use : List Nat
  atype : Nat
  part_start : LSN
  part_len : Nat
  impl_ident : RegID
  impl_use : List Nat
  res : List Nat
  deriving DecidableEq

def PD.parse : Parser PD := do
  let tag ← Tag.parse
  pverify (tag.tag_id = TagID.PD)
  let vds_num ← u32P
  let part_flags ← u16P
  let part_num ← u16P
  let part_cont ← RegID.parse
  let part_cont_use ← takeP 128
  let atype ← u32P
  let part_start ← u32P
  let part_len ← u32P
  let impl_ident ← RegID.parse
  let impl_use ← takeP 128
  let res ← takeP 156
  pure ⟨tag, vds_num, part_flags, part_num, part_cont, part_cont_use, atype,
    part_start, part_len, impl_ident, impl_use, res⟩

/-- Type-1 (physical) partition map body (src/volume.rs `PMType1`); the
nom `Verify` requires the declared length byte to be 6. -/
structure PMType1 where
  len : Nat
  vol_seq_num : Nat
  part_num : Nat
  deriving DecidableEq

def PMType1.parse : Parser PMType1 := do
  let len ← u8P
  pverify (len = 6)
  let vol_seq_num ← u16P
  let part_num ← u16P
  pure ⟨len, vol_seq_num, part_num⟩

/-- Type-2 (virtual/metadata) partition map body (src/volume.rs
`PMType2`); the nom `Verify` requires the declared length byte to be 64. -/
structure PMType2 where
  len : Nat
  res : List Nat
  part_ident : RegID
  vol_seq_nr : Nat
  part_num : Nat
  meta_file_loc : Nat
  meta_mirror_loc : Nat
  meta_bmp_loc : Nat
  alloc_usize : Nat
  align_usize : Nat
  flags : Nat
  res2 : List Nat
  deriving DecidableEq

def PMType2.parse : Parser PMType2 := do
  let len ← u8P
  pverify (len = 64)
  let res ← takeP 2
  let part_ident ← RegID.parse
  let vol_seq_nr ← u16P
  let part_num ← u16P
  let meta_file_loc ← u32P
  let meta_mirror_loc ← u32P
  let meta_bmp_loc ← u32P
  let alloc_usize ← u32P
  let align_usize ← u16P
  let flags ← u8P
  let res2 ← takeP 5
  pure ⟨len, res, part_ident, vol_seq_nr, part_num, meta_file_loc, meta_mirror_loc,
    meta_bmp_loc, alloc_usize, align_usize, flags, res2⟩

/-- Payload byte count of an unrecognized partition-map entry: the source
computes `len as usize - 2`, which in a release build is the wrapping
64-bit subtraction modelled here (in a debug build it aborts when
`len < 2`). -/
def pmUnkCount (len : Nat) : Nat :=
  (len + 18446744073709551614) % 18446744073709551616

/-- Partition map variant (src/volume.rs `PartMapType`), selected by the
leading type byte: 0 = unrecognized, 1 = physical, 2 = virtual/metadata. -/
inductive PartMapType where
  | UNK (len : Nat) (data : List Nat)
  | Type1 (m : PMType1)
  | Type2 (m : PMType2)
  deriving DecidableEq

def PartMapType.parse (sel : Nat) : Parser PartMapType :=
  match sel with
  | 0 => do
    let len ← u8P
    let data ← takeP (pmUnkCount len)
    pure (.UNK len data)
  | 1 => do
    let m ← PMType1.parse
    pure (.Type1 m)
  | 2 => do
    let m ← PMType2.parse
    pure (.Type2 m)
  | _ => pfail

/-- One partition-map record (src/volume.rs `PartMap`): a leading type
byte used as selector for the variant body. -/
structure PartMap where
  pm_type : Nat
  part_map : PartMapType
  deriving DecidableEq

def PartMap.parse : Parser PartMap := do
  let pm_type ← u8P
  let part_map ← PartMapType.parse pm_type
  pure ⟨pm_type, part_map⟩

/-- Logical Volume Descriptor (src/volume.rs `LVD`); the nom `Verify`
attributes require the PVD-style tag match and a declared logical block
size equal to `BLOCKSIZE` (2048). -/
structure LVD where
  tag : Tag
  vds_num : Nat
  desc_charset : CharSpec
  lvid : List Nat
  lbs : Nat
  domain_id : RegID
  lv_contents_use : List Nat
  map_table_len : Nat
  num_part_maps : Nat
  impl_ident : RegID
  impl_use : List Nat
  integr_seq_ext : ExtentAD
  part_maps : List PartMap
  deriving DecidableEq

def LVD.parse : Parser LVD := do
  let tag ← Tag.parse
  pverify (tag.tag_id = TagID.LVD)
  let vds_num ← u32P
  let desc_charset ← CharSpec.parse
  let lvid ← takeP 128
  let lbs ← u32P
  pverify (lbs = 2048)
  let domain_id ← RegID.parse
  let lv_contents_use ← takeP 16
  let map_table_len ← u32P
  let num_part_maps ← u32P
  let impl_ident ← RegID.parse
  let impl_use ← takeP 128
  let integr_seq_ext ← ExtentAD.parse
  let part_maps ← countP PartMap.parse num_part_maps
  pure ⟨tag, vds_num, desc_charset, lvid, lbs, domain_id, lv_contents_use,
    map_table_len, num_part_maps, impl_ident, impl_use, integr_seq_ext, part_maps⟩

/-! ## Data model of src/file.rs -/

/-- Bit-range extraction, modelling the `bitfield` crate's
`BitRange::bit_range(msb, lsb)` on an unsigned integer: the bits from
`lsb` up to and including `msb`. -/
def bitRange (msb lsb v : Nat) : Nat :=
  v / 2 ^ lsb % 2 ^ (msb + 1 - lsb)

/-- Partition-relative logical block number (u32), src/file.rs `LBN`. -/
abbrev LBN := Nat

/-- Logical block address: block number plus partition reference
(src/file.rs `LBAddr`). -/
structure LBAddr where
  lbn : LBN
  part_ref_nr : Nat
  deriving DecidableEq

def LBAddr.parse : Parser LBAddr := do
  let lbn ← u32P
  let part_ref_nr ← u16P
  pure ⟨lbn, part_ref_nr⟩

/-- Short allocation descriptor (src/file.rs `ShortAD`): the parsed u32
length field is split into extent type (bits 31..30) and byte length
(bits 29..0). -/
structure ShortAD where
  len : Nat
  pos : LBN
  ty : Nat
  deriving DecidableEq

def ShortAD.parse_le : Parser ShortAD := do
  let len ← u32P
  let pos ← u32P
  let ty := bitRange 31 30 len
  let len := bitRange 29 0 len
  pure ⟨len, pos, ty⟩

/-- Long allocation descriptor (src/file.rs `LongAD`). -/
structure LongAD where
  len : Nat
  loc : LBAddr
  impl_use : List Nat
  ty : Nat
  deriving DecidableEq

def LongAD.parse_le : Parser LongAD := do
  let len ← u32P
  let loc ← LBAddr.parse
  let impl_use ← takeP 6
  let ty := bitRange 31 30 len
  let len := bitRange 29 0 len
  pure ⟨len, loc, impl_use, ty⟩

/-- Extended allocation descriptor (src/file.rs `ExtAD`): two
independently split length fields. -/
structure ExtAD where
  len : Nat
  rec_len : Nat
  info_len : Nat
  ext_loc : LBAddr
  impl_use : List Nat
  len_ty : Nat
  rec_len_ty : Nat
  deriving DecidableEq

def ExtAD.parse_le : Parser ExtAD := do
  let len ← u32P
  let rec_len ← u32P
  let info_len ← u32P
  let ext_loc ← LBAddr.parse
  let impl_use ← takeP 2
  let len_ty := bitRange 31 30 len
  let len := bitRange 29 0 len
  let rec_len_ty := bitRange 31 30 rec_len
  let rec_len := bitRange 29 0 rec_len
  pure ⟨len, rec_len, info_len, ext_loc, impl_use, len_ty, rec_len_ty⟩

/-- Allocation-descriptor variant selector (src/file.rs `AllocType`). -/
inductive AllocType where
  | SHORT | LONG | EXTENDED
  deriving DecidableEq

/-- Allocation descriptor variant (src/file.rs `AllocDesc`), parsed with
an explicit `AllocType` selector. -/
inductive AllocDesc where
  | SHORT (ad : ShortAD)
  | LONG (ad : LongAD)
  | EXTENDED (ad : ExtAD)
  deriving DecidableEq

def AllocDesc.parse (ty : AllocType) : Parser AllocDesc :=
  match ty with
  | .SHORT => do
    let ad ← ShortAD.parse_le
    pure (.SHORT ad)
  | .LONG => do
    let ad ← LongAD.parse_le
    pure (.LONG ad)
  | .EXTENDED => do
    let ad ← ExtAD.parse_le
    pure (.EXTENDED ad)

/-- File-domain descriptor tag identifier (src/file.rs `FileTagID`,
a u16 enum). -/
inductive FileTagID where
  | TD | FSD | FID | AED | IE | TE | FE | EAHD | USE | SBD | PIE | EFE
  deriving DecidableEq

/-- Dispatch of a decoded u16 to a `FileTagID`: 8 = TD, 256..266 are the
file-domain kinds; anything else is a nom parse error. -/
def fileTagIdOf (v : Nat) : Parser FileTagID :=
  match v with
  | 8 => pure .TD
  | 256 => pure .FSD
  | 257 => pure .FID
  | 258 => pure .AED
  | 259 => pure .IE
  | 260 => pure .TE
  | 261 => pure .FE
  | 262 => pure .EAHD
  | 263 => pure .USE
  | 264 => pure .SBD
  | 265 => pure .PIE
  | 266 => pure .EFE
  | _ => pfail

def FileTagID.parse : Parser FileTagID := u16P >>= fileTagIdOf

/-- File-domain 16-byte descriptor tag (src/file.rs `FileTag`). -/
structure FileTag where
  tag_id : FileTagID
  version : Nat
  checksum : Nat
  res : Nat
  serial : Nat
  desc_crc : Nat
  desc_crc_len : Nat
  tag_loc : LBN
  deriving DecidableEq

def FileTag.parse : Parser FileTag := do
  let tag_id ← FileTagID.parse
  let version ← u16P
  let checksum ← u8P
  let res ← u8P
  let serial ← u16P
  let desc_crc ← u16P
  let desc_crc_len ← u16P
  let tag_loc ← u32P
  pure ⟨tag_id, version, checksum, res, serial, desc_crc, desc_crc_len, tag_loc⟩

/-- Modelled from the spec: `DString<N>` (`crate::volume::DString`, whose
definition is not present under src/) is a fixed-length identifier blob;
following the spec's data model ("identifiers, charset specs" captured
raw), it is modelled as its N raw bytes. -/
def dstringP (n : Nat) : Parser (List Nat) := takeP n

/-- File Set Descriptor (src/file.rs `FSD`); the nom `Verify` attribute
requires the tag id to be `FSD`. -/
structure FSD where
  tag : FileTag
  rec_time : Timestamp
  interch_lvl : Nat
  max_interch_lvl : Nat
  charset_list : Nat
  max_charset_list : Nat
  fs_num : Nat
  fsd_num : Nat
  lv_id_charset : CharSpec
  lv_id : List Nat
  fs_charset : CharSpec
  fs_id : List Nat
  copyright_id : List Nat
  af_id : List Nat
  root_dir_icb : LongAD
  domain_id : RegID
  next_extent : LongAD
  ssd_icb : LongAD
  res : List Nat
  deriving DecidableEq

def FSD.parse : Parser FSD := do
  let tag ← FileTag.parse
  pverify (tag.tag_id = FileTagID.FSD)
  let rec_time ← Timestamp.parse
  let interch_lvl ← u16P
  let max_interch_lvl ← u16P
  let charset_list ← u32P
  let max_charset_list ← u32P
  let fs_num ← u32P
  let fsd_num ← u32P
  let lv_id_charset ← CharSpec.parse
  let lv_id ← dstringP 128
  let fs_charset ← CharSpec.parse
  let fs_id ← dstringP 32
  let copyright_id ← dstringP 32
  let af_id ← dstringP 32
  let root_dir_icb ← LongAD.parse_le
  let domain_id ← RegID.parse
  let next_extent ← LongAD.parse_le
  let ssd_icb ← LongAD.parse_le
  let res ← takeP 32
  pure ⟨tag, rec_time, interch_lvl, max_interch_lvl, charset_list, max_charset_list,
    fs_num, fsd_num, lv_id_charset, lv_id, fs_charset, fs_id, copyright_id, af_id,
    root_dir_icb, domain_id, next_extent, ssd_icb, res⟩

/-- Padding byte count of a File Identifier Descriptor, exactly the nom
`Count` expression of src/file.rs `FID`:
`4 * ((fid_len + impl_len + 38 + 3) / 4) - (fid_len + impl_len + 38)`. -/
def fidPad (fid_len impl_len : Nat) : Nat :=
  4 * ((fid_len + impl_len + 38 + 3) / 4) - (fid_len + impl_len + 38)

/-- File Identifier Descriptor, one directory entry (src/file.rs `FID`);
the nom `Verify` attribute requires the tag id to be `FID`. -/
structure FID where
  tag : FileTag
  version : Nat
  file_bits : Nat
  fid_len : Nat
  icb : LongAD
  impl_len : Nat
  impl_use : List Nat
  fid : List Nat
  padding : List Nat
  deriving DecidableEq

def FID.parse : Parser FID := do
  let tag ← FileTag.parse
  pverify (tag.tag_id = FileTagID.FID)
  let version ← u16P
  let file_bits ← u8P
  let fid_len ← u8P
  let icb ← LongAD.parse_le
  let impl_len ← u16P
  let impl_use ← takeP impl_len
  let fid ← takeP fid_len
  let padding ← takeP (fidPad fid_len impl_len)
  pure ⟨tag, version, file_bits, fid_len, icb, impl_len, impl_use, fid, padding⟩

/-- Allocation Extent Descriptor (src/file.rs `AED`); the nom `Verify`
attribute requires the tag id to be `AED`. -/
structure AED where
  tag : FileTag
  prev_aed : LBN
  ad_len : Nat
  deriving DecidableEq

def AED.parse : Parser AED := do
  let tag ← FileTag.parse
  pverify (tag.tag_id = FileTagID.AED)
  let prev_aed ← u32P
  let ad_len ← u32P
  pure ⟨tag, prev_aed, ad_len⟩

/-- ICB file type (src/file.rs `FileType`, a u8 enum: 0..13 consecutive,
then 250 and 251). -/
inductive FileType where
  | UNK | USE | PIE | IE | DIR | BYTES | BLOCKDEV | CHARDEV
  | EXTATTR | FIFO | SOCK | TE | SYMLINK | STREAMDIR
  | METAMAIN | METAMIRROR
  deriving DecidableEq

/-- Dispatch of a decoded u8 to a `FileType`; any other value is a nom
parse error. -/
def fileTypeOf (v : Nat) : Parser FileType :=
  match v with
  | 0 => pure .UNK
  | 1 => pure .USE
  | 2 => pure .PIE
  | 3 => pure .IE
  | 4 => pure .DIR
  | 5 => pure .BYTES
  | 6 => pure .BLOCKDEV
  | 7 => pure .CHARDEV
  | 8 => pure .EXTATTR
  | 9 => pure .FIFO
  | 10 => pure .SOCK
  | 11 => pure .TE
  | 12 => pure .SYMLINK
  | 13 => pure .STREAMDIR
  | 250 => pure .METAMAIN
  | 251 => pure .METAMIRROR
  | _ => pfail

def FileType.parse : Parser FileType := u8P >>= fileTypeOf

/-- Error kinds of the crate. Functions in src/lib.rs and src/file.rs
return `Result<_, Box<dyn Error>>` (or `Result<_, &str>`) with string
messages; each message is modelled by one constructor here. -/
inductive UErr where
  | parseAVD
  | parseVDSTag
  | parsePD
  | noPVD
  | noPD
  | noLVD
  | parseFSDPointer
  | parseFSD
  | parseRootICB
  | multipleExtents
  | unknownAllocType
  deriving DecidableEq

/-- Result of a fallible crate function: success, a typed error (a Rust
`Err` with the corresponding message), or a process abort (a Rust panic,
such as a failed `unwrap`). -/
inductive RRes (α : Type) where
  | ok (a : α)
  | err (e : UErr)
  | abort
  deriving DecidableEq

/-- ICB flags word (src/file.rs `ICBFlags`). -/
structure ICBFlags where
  bits : Nat
  deriving DecidableEq

def ICBFlags.parse : Parser ICBFlags := do
  let bits ← u16P
  pure ⟨bits⟩

/-- The allocation-descriptor type selector: the low 4 bits of the ICB
flags field (src/file.rs `ICBFlags::get_alloc_type`); values outside
0, 1, 2 are the error "unknown alloc type.". -/
def ICBFlags.get_alloc_type (f : ICBFlags) : RRes AllocType :=
  match bitRange 3 0 f.bits with
  | 0 => .ok .SHORT
  | 1 => .ok .LONG
  | 2 => .ok .EXTENDED
  | _ => .err .unknownAllocType

/-- ICB tag (src/file.rs `ICBTag`). -/
structure ICBTag where
  num_prior_entries : Nat
  strategy : Nat
  strat_param : List Nat
  max_num_entries : Nat
  res : Nat
  file_type : FileType
  parent_icb : LBAddr
  flags : ICBFlags
  deriving DecidableEq

def ICBTag.parse : Parser ICBTag := do
  let num_prior_entries ← u32P
  let strategy ← u16P
  let strat_param ← takeP 2
  let max_num_entries ← u16P
  let res ← u8P
  let file_type ← FileType.parse
  let parent_icb ← LBAddr.parse
  let flags ← ICBFlags.parse
  pure ⟨num_prior_entries, strategy, strat_param, max_num_entries, res, file_type,
    parent_icb, flags⟩

/-- File Entry body (src/file.rs `FileEntry`): fixed metadata followed by
the extended-attributes blob and the allocation-descriptors blob, whose
byte counts are the two preceding length fields. -/
structure FileEntry where
  uid : Nat
  gid : Nat
  permissions : Nat
  file_link_count : Nat
  record_format : Nat
  record_disp_attrib : Nat
  record_len : Nat
  info_len : Nat
  num_lb_recorded : Nat
  atime : Timestamp
  mtime : Timestamp
  attrtime : Timestamp
  checkpoint : Nat
  ea_icb : LongAD
  impl_ident : RegID
  unique_id : Nat
  ea_len : Nat
  ad_len : Nat
  ex_attrs : List Nat
  alloc_descs : List Nat
  deriving DecidableEq

def FileEntry.parse : Parser FileEntry := do
  let uid ← u32P
  let gid ← u32P
  let permissions ← u32P
  let file_link_count ← u16P
  let record_format ← u8P
  let record_disp_attrib ← u8P
  let record_len ← u32P
  let info_len ← u64P
  let num_lb_recorded ← u64P
  let atime ← Timestamp.parse
  let mtime ← Timestamp.parse
  let attrtime ← Timestamp.parse
  let checkpoint ← u32P
  let ea_icb ← LongAD.parse_le
  let impl_ident ← RegID.parse
  let unique_id ← u64P
  let ea_len ← u32P
  let ad_len ← u32P
  let ex_attrs ← takeP ea_len
  let alloc_descs ← takeP ad_len
  pure ⟨uid, gid, permissions, file_link_count, record_format, record_disp_attrib,
    record_len, info_len, num_lb_recorded, atime, mtime, attrtime, checkpoint,
    ea_icb, impl_ident, unique_id, ea_len, ad_len, ex_attrs, alloc_descs⟩

/-- ICB body variant (src/file.rs `ICBBody`). -/
inductive ICBBody where
  | Indirect (ad : LongAD)
  | Terminal
  | File (fe : FileEntry)
  deriving DecidableEq

/-- Body decoder (src/file.rs `ICBBody::parse_le`), dispatching on the
ICB tag's file type: `TE` is the empty Terminal variant, the ten
file-entry types decode a full `FileEntry`, and every other file type is
a nom `Failure`. -/
def ICBBody.parse_le (selector : FileType) : Parser ICBBody :=
  match selector with
  | .TE => pure .Terminal
  | .UNK | .DIR | .BYTES | .BLOCKDEV | .CHARDEV | .EXTATTR | .FIFO | .SOCK
  | .METAMAIN | .METAMIRROR =>
    ⟨fun i => (FileEntry.parse.run i).map (fun e => (e.1, ICBBody.File e.2))⟩
  | _ => pfail

/-- Information Control Block (src/file.rs `ICB`): file tag, ICB tag, and
the body selected by the ICB tag's file type.  Note there is no `Verify`
attribute on `tag` in the source: the tag id is not checked. -/
structure ICB where
  tag : FileTag
  icb_tag : ICBTag
  body : ICBBody
  deriving DecidableEq

def ICB.parse : Parser ICB := do
  let tag ← FileTag.parse
  let icb_tag ← ICBTag.parse
  let body ← ICBBody.parse_le icb_tag.file_type
  pure ⟨tag, icb_tag, body⟩

/-- The descriptor-blob iteration of src/file.rs `ICB::get_alloc_descs`:
parse one allocation descriptor at a time, stopping at the first parse
failure.  The fuel argument only bounds the recursion; it never cuts the
loop short because every successful `AllocDesc.parse` consumes at least
8 bytes of the blob, so `length + 1` steps always reach the failure. -/
def parseADChain (ty : AllocType) : Nat → List Nat → List AllocDesc
  | 0, _ => []
  | fuel + 1, i =>
    match (AllocDesc.parse ty).run i with
    | some (r, d) => d :: parseADChain ty fuel r
    | none => []

/-- src/file.rs `ICB::get_alloc_descs`.  The source first calls
`self.icb_tag.flags.get_alloc_type().unwrap()`, which aborts the process
when the selector is invalid (modelled by `RRes.abort`); with a valid
selector it iterates the File body's descriptor blob (a non-File body
yields the empty vector). -/
def ICB.get_alloc_descs (icb : ICB) : RRes (List AllocDesc) :=
  match icb.icb_tag.flags.get_alloc_type with
  | .ok ty =>
    match icb.body with
    | .File file => .ok (parseADChain ty (file.alloc_descs.length + 1) file.alloc_descs)
    | _ => .ok []
  | _ => .abort

/-! ## Session logic of src/lib.rs -/

/-- Logical block size in bytes (src/lib.rs `BLOCKSIZE`). -/
def BLOCKSIZE : Nat := 2048

/-- Whether a byte is a UTF-8 continuation byte (0x80..0xBF). -/
def utf8Cont (b : Nat) : Bool := 128 ≤ b && b ≤ 191

/-- UTF-8 validity of a byte sequence, with Rust `str::from_utf8`
semantics (overlong encodings, surrogates and values above U+10FFFF are
invalid).  The PD arm of the VDS loop in src/lib.rs calls
`std::str::from_utf8(&pd.part_cont.ident).unwrap()`, which aborts the
process on invalid UTF-8. -/
def utf8Ok : List Nat → Bool
  | [] => true
  | b :: r =>
    if b ≤ 127 then utf8Ok r
    else if 194 ≤ b ∧ b ≤ 223 then
      match r with
      | c1 :: r2 => utf8Cont c1 && utf8Ok r2
      | [] => false
    else if b = 224 then
      match r with
      | c1 :: c2 :: r2 => (160 ≤ c1 && c1 ≤ 191) && utf8Cont c2 && utf8Ok r2
      | _ => false
    else if (225 ≤ b ∧ b ≤ 236) ∨ b = 238 ∨ b = 239 then
      match r with
      | c1 :: c2 :: r2 => utf8Cont c1 && utf8Cont c2 && utf8Ok r2
      | _ => false
    else if b = 237 then
      match r with
      | c1 :: c2 :: r2 => (128 ≤ c1 && c1 ≤ 159) && utf8Cont c2 && utf8Ok r2
      | _ => false
    else if b = 240 then
      match r with
      | c1 :: c2 :: c3 :: r2 =>
        (144 ≤ c1 && c1 ≤ 191) && utf8Cont c2 && utf8Cont c3 && utf8Ok r2
      | _ => false
    else if 241 ≤ b ∧ b ≤ 243 then
      match r with
      | c1 :: c2 :: c3 :: r2 => utf8Cont c1 && utf8Cont c2 && utf8Cont c3 && utf8Ok r2
      | _ => false
    else if b = 244 then
      match r with
      | c1 :: c2 :: c3 :: r2 =>
        (128 ≤ c1 && c1 ≤ 143) && utf8Cont c2 && utf8Cont c3 && utf8Ok r2
      | _ => false
    else false

/-- Running state of the Volume Descriptor Sequence scan of
src/lib.rs `UDF::new`: the `o_pvd`, `o_pd`, `o_lvd` mutables. -/
structure VDSState where
  oPvd : Option PVD
  oPd : Option PD
  oLvd : Option LVD
  deriving DecidableEq

/-- The sector loop of src/lib.rs `UDF::new` (lines 44..87), instrumented
with the list of sectors actually read.  For each sector: read its block,
parse the generic tag (a failure is the "error parsing VDS tag" error),
then dispatch on the tag id.  `TD` and `VD` break the scan; `PVD` and
`LVD` re-parse the block with `.unwrap()` (an abort on failure); `PD`
re-parses with an explicit error, then aborts if the partition content
identifier is not UTF-8 (the `from_utf8(..).unwrap()` of the logging
code); each retained descriptor overwrites the previous one; all other
tag ids are skipped. -/
def vdsLoop (disk : Nat → List Nat) : List Nat → VDSState → List Nat × RRes VDSState
  | [], st => ([], .ok st)
  | n :: ns, st =>
    match Tag.parse.run (disk n) with
    | none => ([n], .err .parseVDSTag)
    | some (_, tag) =>
      match tag.tag_id with
      | .TD => ([n], .ok st)
      | .VD => ([n], .ok st)
      | .PVD =>
        match PVD.parse.run (disk n) with
        | none => ([n], .abort)
        | some (_, pvd) =>
          let r := vdsLoop disk ns { st with oPvd := some pvd }
          (n :: r.1, r.2)
      | .PD =>
        match PD.parse.run (disk n) with
        | none => ([n], .err .parsePD)
        | some (_, pd) =>
          if utf8Ok pd.part_cont.ident then
            let r := vdsLoop disk ns { st with oPd := some pd }
            (n :: r.1, r.2)
          else ([n], .abort)
      | .LVD =>
        match LVD.parse.run (disk n) with
        | none => ([n], .abort)
        | some (_, lvd) =>
          let r := vdsLoop disk ns { st with oLvd := some lvd }
          (n :: r.1, r.2)
      | _ =>
        let r := vdsLoop disk ns st
        (n :: r.1, r.2)

/-- The sector range of the VDS scan: src/lib.rs computes
`vds_end = vds_start + main_vds.len` in u32 arithmetic and iterates the
half-open range `vds_start..vds_end`, so the byte length of the extent is
used directly as a sector count. -/
def vdsRange (loc len : Nat) : List Nat :=
  List.range' loc ((loc + len) % 4294967296 - loc)

/-- The partition-map walk of src/lib.rs `UDF::new` (lines 97..105): every
Type2 map overwrites `meta_file_loc`, so the last one wins. -/
def findMetaLoc (maps : List PartMap) : Option Nat :=
  maps.foldl
    (fun acc pm =>
      match pm.part_map with
      | .Type2 p => some p.meta_file_loc
      | _ => acc)
    none

/-- The first-descriptor step of the metadata-offset resolution of
src/lib.rs `UDF::new` (lines 113..119): the block address of descriptor 0,
when present. -/
def firstDescOffset (ds : List AllocDesc) : Option Nat :=
  match ds with
  | [] => none
  | .SHORT ad :: _ => some ad.pos
  | .LONG ad :: _ => some ad.loc.lbn
  | .EXTENDED ad :: _ => some ad.ext_loc.lbn

/-- The open session (src/lib.rs `UDF`), minus the owned byte source
(which the embedding passes explicitly as `disk`). -/
structure UDF where
  primary_vol_desc : PVD
  part_desc : PD
  logical_vol_desc : LVD
  meta_file_offset : Option Nat
  deriving DecidableEq

/-- Session construction (src/lib.rs `UDF::new`): read sector 256 and
parse the AVD, scan the VDS extent, require a PVD, a PD and an LVD, then
resolve the metadata-partition offset: if some partition map is Type2,
read the ICB at `part_start + meta_file_loc` (u32 addition), with
`.unwrap()` on the parse (abort on failure), take its allocation
descriptors (which may abort), and keep the first descriptor's block
address. -/
def UDF.new (disk : Nat → List Nat) : RRes UDF :=
  match AVD.parse.run (disk 256) with
  | none => .err .parseAVD
  | some (_, avd) =>
    match (vdsLoop disk (vdsRange avd.main_vds.loc avd.main_vds.len) ⟨none, none, none⟩).2 with
    | .err e => .err e
    | .abort => .abort
    | .ok st =>
      match st.oPvd with
      | none => .err .noPVD
      | some pvd =>
        match st.oPd with
        | none => .err .noPD
        | some pd =>
          match st.oLvd with
          | none => .err .noLVD
          | some lvd =>
            match findMetaLoc lvd.part_maps with
            | none => .ok ⟨pvd, pd, lvd, none⟩
            | some mloc =>
              match ICB.parse.run (disk ((pd.part_start + mloc) % 4294967296)) with
              | none => .abort
              | some (_, meta_file) =>
                match meta_file.get_alloc_descs with
                | .ok ds => .ok ⟨pvd, pd, lvd, firstDescOffset ds⟩
                | _ => .abort

/-- The metadata-offset adjustment applied to a partition-relative sector
number in src/lib.rs `get_root_dir` and `alloc_desc_to_offset_len`
(a u32 `+=` when the session has a metadata offset). -/
def metaAdjust (u : UDF) (loc : Nat) : Nat :=
  match u.meta_file_offset with
  | some m => (loc + m) % 4294967296
  | none => loc

/-- Sector of the File Set Descriptor as computed by src/lib.rs
`get_root_dir`: `part_start + fsd_ext.loc.lbn` (u32), then the metadata
adjustment. -/
def rootFsdLoc (u : UDF) (fsd_ext : LongAD) : Nat :=
  metaAdjust u ((u.part_desc.part_start + fsd_ext.loc.lbn) % 4294967296)

/-- Sector of the root-directory ICB as computed by src/lib.rs
`get_root_dir`. -/
def rootIcbLoc (u : UDF) (fsd : FSD) : Nat :=
  metaAdjust u ((u.part_desc.part_start + fsd.root_dir_icb.loc.lbn) % 4294967296)

/-- src/lib.rs `UDF::get_root_dir`: parse the FSD pointer out of the
LVD's `lv_contents_use`, read and parse the FSD, read and parse the root
ICB, then fail with the "multiple allocation descriptors for one ICB not
supported yet" error when the root ICB has more than one allocation
descriptor, otherwise return the root ICB. -/
def UDF.get_root_dir (disk : Nat → List Nat) (u : UDF) : RRes ICB :=
  match LongAD.parse_le.run u.logical_vol_desc.lv_contents_use with
  | none => .err .parseFSDPointer
  | some (_, fsd_ext) =>
    match FSD.parse.run (disk (rootFsdLoc u fsd_ext)) with
    | none => .err .parseFSD
    | some (_, fsd) =>
      match ICB.parse.run (disk (rootIcbLoc u fsd)) with
      | none => .err .parseRootICB
      | some (_, root_entry) =>
        match root_entry.get_alloc_descs with
        | .ok root_ad =>
          if 1 < root_ad.length then .err .multipleExtents
          else .ok root_entry
        | .err e => .err e
        | .abort => .abort

/-- Block number carried by an allocation descriptor, as selected by the
match in src/lib.rs `alloc_desc_to_offset_len`. -/
def AllocDesc.lbnOf : AllocDesc → Nat
  | .SHORT x => x.pos
  | .LONG x => x.loc.lbn
  | .EXTENDED x => x.ext_loc.lbn

/-- Byte length carried by an allocation descriptor, as selected by the
match in src/lib.rs `alloc_desc_to_offset_len`. -/
def AllocDesc.lenOf : AllocDesc → Nat
  | .SHORT x => x.len
  | .LONG x => x.len
  | .EXTENDED x => x.len

/-- src/lib.rs `UDF::alloc_desc_to_offset_len`: all additions and the
final multiplication by `BLOCKSIZE as u32` are u32 operations, hence the
explicit wrap-arounds. -/
def UDF.alloc_desc_to_offset_len (u : UDF) (ad : AllocDesc) : Nat × Nat :=
  let loc := ad.lbnOf
  let len := ad.lenOf
  let loc := (loc + u.part_desc.part_start) % 4294967296
  let loc := metaAdjust u loc
  (loc * BLOCKSIZE % 4294967296, len)

/-- The metadata offset as a number: `m` when the session resolved a
metadata partition, 0 otherwise. -/
def metaOr0 (u : UDF) : Nat :=
  match u.meta_file_offset with
  | some m => m
  | none => 0

/-! ## Concrete fixtures for witnesses and counterexamples -/

/-- A run of zero bytes. -/
def zeros (n : Nat) : List Nat := List.replicate n 0

/-- Little-endian encoding of a u16 value. -/
def le16 (v : Nat) : List Nat := [v % 256, v / 256 % 256]

/-- Little-endian encoding of a u32 value. -/
def le32 (v : Nat) : List Nat :=
  [v % 256, v / 256 % 256, v / 65536 % 256, v / 16777216 % 256]

/-- A 16-byte descriptor tag whose id field is `id` and whose other
fields are zero. -/
def mkTagBytes (id : Nat) : List Nat := le16 id ++ zeros 14

/-- An AVD block: tag id 2, main VDS extent of `len` sectors-worth of
length field at sector `loc`, zero reserve extent. -/
def avdBlock (len loc : Nat) : List Nat :=
  mkTagBytes 2 ++ le32 len ++ le32 loc ++ le32 0 ++ le32 0 ++ zeros 480

/-- A 512-byte PVD block whose `vds_num` field is `k` and whose other
fields are zero. -/
def pvdBlock (k : Nat) : List Nat := mkTagBytes 1 ++ le32 k ++ zeros 492

/-- A 512-byte all-zero PD block. -/
def pdBlock : List Nat := mkTagBytes 5 ++ zeros 496

/-- A 440-byte LVD block with the mandatory block size 2048 and no
partition maps. -/
def lvdBlock : List Nat := mkTagBytes 6 ++ zeros 196 ++ le32 2048 ++ zeros 224

/-- A Terminating Descriptor tag (the scan only reads the tag). -/
def tdBlock : List Nat := mkTagBytes 8

/-- Disk for the C2 scenario: AVD at sector 256 pointing at a VDS of five
sectors at 300; two PVDs (vds_num 1 then 2), a PD, an LVD, a TD. -/
def c2disk : Nat → List Nat := fun n =>
  if n = 256 then avdBlock 5 300
  else if n = 300 then pvdBlock 1
  else if n = 301 then pvdBlock 2
  else if n = 302 then pdBlock
  else if n = 303 then lvdBlock
  else if n = 304 then tdBlock
  else []

/-- Disk for the C5 scenario: three consecutive sectors holding blocks
with tag id 0 (UNK, which the scan skips), no terminator. -/
def c5disk : Nat → List Nat := fun n =>
  if 300 ≤ n ∧ n ≤ 302 then mkTagBytes 0 else []

/-- Zero-valued descriptor tag record. -/
def zTag (id : TagID) : Tag := ⟨id, 0, 0, 0, 0, 0, 0, 0⟩

/-- Zero-valued file-domain tag record. -/
def zFTag (id : FileTagID) : FileTag := ⟨id, 0, 0, 0, 0, 0, 0, 0⟩

def zCS : CharSpec := ⟨0, zeros 63⟩

def zRID : RegID := ⟨0, zeros 23, zeros 8⟩

def zTS : Timestamp := ⟨0, 0, 0, 0, 0, 0, 0, 0, 0, 0⟩

def zExt : ExtentAD := ⟨0, 0⟩

def zLongAD : LongAD := ⟨0, ⟨0, 0⟩, zeros 6, 0⟩

/-- The PVD value decoded from `pvdBlock k`. -/
def pvdZ (k : Nat) : PVD :=
  ⟨zTag .PVD, k, 0, zeros 32, 0, 0, 0, 0, 0, 0, zeros 128, zCS, zCS, zExt, zExt,
    zRID, zTS, zRID, zeros 64, 0, 0, zeros 22⟩

/-- The PD value decoded from `pdBlock`. -/
def pdZ : PD := ⟨zTag .PD, 0, 0, 0, zRID, zeros 128, 0, 0, 0, zRID, zeros 128, zeros 156⟩

/-- An LVD value whose `lv_contents_use` holds a Long allocation
descriptor pointing at partition-relative block 5 (and no partition
maps). -/
def lvdZ8 : LVD :=
  ⟨zTag .LVD, 0, zCS, zeros 128, 2048, zRID, le32 0 ++ le32 5 ++ le16 0 ++ zeros 6,
    0, 0, zRID, zeros 128, zExt, []⟩

/-- A session with partition start 0, no metadata offset, and an FSD
pointer at block 5. -/
def sessionA : UDF := ⟨pvdZ 0, pdZ, lvdZ8, none⟩

/-- A 512-byte FSD block whose root-directory ICB pointer addresses
partition-relative block 6. -/
def fsdBlock : List Nat :=
  mkTagBytes 256 ++ zeros 384 ++ le32 0 ++ le32 6 ++ zeros 8 ++ zeros 96

/-- A root-directory ICB block: file tag FE, ICB tag with file type DIR
and alloc type Short, and a File Entry carrying two Short allocation
descriptors. -/
def rootIcbBlock : List Nat :=
  mkTagBytes 261 ++ zeros 11 ++ [4] ++ zeros 6 ++ le16 0
    ++ zeros 132 ++ le32 0 ++ le32 16
    ++ le32 8 ++ le32 50 ++ le32 8 ++ le32 60

/-- Disk for the C8 scenario: the FSD at sector 5, the root ICB at
sector 6. -/
def c8disk : Nat → List Nat := fun n =>
  if n = 5 then fsdBlock else if n = 6 then rootIcbBlock else []

/-- An ICB tag whose flags word is 3, i.e. whose alloc-type selector (the
low 4 bits) is the reserved value 3. -/
def badICBTag : ICBTag := ⟨0, 0, zeros 2, 0, 0, .BYTES, ⟨0, 0⟩, ⟨3⟩⟩

/-- A zero-valued File Entry. -/
def zFileEntry : FileEntry :=
  ⟨0, 0, 0, 0, 0, 0, 0, 0, 0, zTS, zTS, zTS, 0, zLongAD, zRID, 0, 0, 0, [], []⟩

/-- An ICB whose ICB-tag flags encode the reserved alloc-type value 3. -/
def c1ICB : ICB := ⟨zFTag .FE, badICBTag, .File zFileEntry⟩

/-- Bytes of an ICB-shaped record whose file tag id is FSD (256), not one
of the ICB record kinds, with a Terminal-Entry ICB tag. -/
def c3bytes : List Nat :=
  mkTagBytes 256 ++ zeros 11 ++ [11] ++ zeros 6 ++ le16 0

/-- Bytes of a minimal FID record: one name byte, no implementation-use
bytes, one padding byte. -/
def c7bytes : List Nat :=
  mkTagBytes 257 ++ le16 0 ++ [0] ++ [1] ++ (le32 0 ++ le32 0 ++ le16 0 ++ zeros 6)
    ++ le16 0 ++ [65] ++ [0]

/-- Precondition for an uninterrupted VDS scan over the sectors `ns`: at
every sector the generic tag parses, is neither a Terminating Descriptor
nor a VD (the two break conditions of the loop), and the branch taken for
its tag id succeeds (the PVD/PD/LVD re-parse, and for PD the UTF-8
partition-content identifier that the logging code unwraps). -/
def scanOK (disk : Nat → List Nat) (ns : List Nat) : Prop :=
  ∀ n ∈ ns, ∃ r t, Tag.parse.run (disk n) = some (r, t) ∧
    t.tag_id ≠ TagID.TD ∧ t.tag_id ≠ TagID.VD ∧
    (t.tag_id = TagID.PVD → ∃ rp p, PVD.parse.run (disk n) = some (rp, p)) ∧
    (t.tag_id = TagID.PD → ∃ rp p, PD.parse.run (disk n) = some (rp, p) ∧
      utf8Ok p.part_cont.ident = true) ∧
    (t.tag_id = TagID.LVD → ∃ rp p, LVD.parse.run (disk n) = some (rp, p))

/-! ## Parser-combinator lemmas -/

@[simp] theorem run_pure {α : Type} (a : α) (i : List Nat) :
    (pure a : Parser α).run i = some (i, a) := rfl

@[simp] theorem run_bind {α β : Type} (p : Parser α) (f : α → Parser β) (i : List Nat) :
    (p >>= f).run i =
      match p.run i with
      | some (r, a) => (f a).run r
      | none => none := rfl

@[simp] theorem run_pfail {α : Type} (i : List Nat) :
    (pfail : Parser α).run i = none := rfl

theorem run_takeP (n : Nat) (i : List Nat) :
    (takeP n).run i = if n ≤ i.length then some (i.drop n, i.take n) else none := rfl

theorem run_pverify (c : Prop) [Decidable c] (i : List Nat) :
    (pverify c).run i = if c then some (i, ()) else none := rfl

@[simp] theorem run_pverify_pos (c : Prop) [Decidable c] (h : c) (i : List Nat) :
    (pverify c).run i = some (i, ()) := by
  simp [pverify, h]

@[simp] theorem run_pverify_neg (c : Prop) [Decidable c] (h : ¬ c) (i : List Nat) :
    (pverify c).run i = none := by
  simp [pverify, h]

/-- Chained-parser inversion: a successful bind factors into a successful
first parser followed by a successful continuation. -/
theorem run_bind_some {α β : Type} {p : Parser α} {f : α → Parser β}
    {i r : List Nat} {b : β} (h : (p >>= f).run i = some (r, b)) :
    ∃ m a, p.run i = some (m, a) ∧ (f a).run m = some (r, b) := by
  rw [run_bind] at h
  cases hp : p.run i with
  | none => rw [hp] at h; exact absurd h (by simp)
  | some ma =>
    obtain ⟨m, a⟩ := ma
    rw [hp] at h
    exact ⟨m, a, rfl, h⟩

theorem u8P_len {i r : List Nat} {v : Nat} (h : u8P.run i = some (r, v)) :
    i.length = 1 + r.length := by
  cases i with
  | nil => exact absurd h (by simp [u8P])
  | cons b t => simp [u8P] at h; simp [h.1, Nat.add_comm]

theorem u16P_len {i r : List Nat} {v : Nat} (h : u16P.run i = some (r, v)) :
    i.length = 2 + r.length := by
  match i with
  | [] => exact absurd h (by simp [u16P])
  | [b0] => exact absurd h (by simp [u16P])
  | b0 :: b1 :: t => simp [u16P] at h; simp [h.1]; omega

theorem u32P_len {i r : List Nat} {v : Nat} (h : u32P.run i = some (r, v)) :
    i.length = 4 + r.length := by
  match i with
  | [] => exact absurd h (by simp [u32P])
  | [b0] => exact absurd h (by simp [u32P])
  | [b0, b1] => exact absurd h (by simp [u32P])
  | [b0, b1, b2] => exact absurd h (by simp [u32P])
  | b0 :: b1 :: b2 :: b3 :: t => simp [u32P] at h; simp [h.1]; omega

theorem takeP_len {n : Nat} {i r : List Nat} {v : List Nat}
    (h : (takeP n).run i = some (r, v)) :
    i.length = n + r.length ∧ v.length = n := by
  simp only [takeP] at h
  by_cases hn : n ≤ i.length
  · rw [if_pos hn] at h
    have h1 : i.drop n = r := congrArg Prod.fst (Option.some.inj h)
    have h2 : i.take n = v := congrArg Prod.snd (Option.some.inj h)
    constructor
    · rw [← h1]; simp; omega
    · rw [← h2]; simp; omega
  · rw [if_neg hn] at h; exact absurd h (by simp)

theorem pverify_len {c : Prop} [Decidable c] {i r : List Nat} {v : Unit}
    (h : (pverify c).run i = some (r, v)) : r = i := by
  simp only [pverify] at h
  by_cases hc : c
  · rw [if_pos hc] at h
    exact (Option.some.inj h |> congrArg Prod.fst).symm
  · rw [if_neg hc] at h; exact absurd h (by simp)

theorem pure_len {α : Type} {a : α} {i r : List Nat} {v : α}
    (h : (pure a : Parser α).run i = some (r, v)) : r = i := by
  simp at h; exact h.1.symm


theorem fileTagIdOf_keeps {v : Nat} {i r : List Nat} {t : FileTagID}
    (h : (fileTagIdOf v).run i = some (r, t)) : r = i := by
  unfold fileTagIdOf at h
  split at h <;> simp_all

theorem tagIdOf_keeps {v : Nat} {i r : List Nat} {t : TagID}
    (h : (tagIdOf v).run i = some (r, t)) : r = i := by
  unfold tagIdOf at h
  split at h <;> simp_all

theorem FileTag_len {i r : List Nat} {t : FileTag}
    (h : FileTag.parse.run i = some (r, t)) : i.length = 16 + r.length := by
  unfold FileTag.parse at h
  obtain ⟨m1, tid, h1, h⟩ := run_bind_some h
  obtain ⟨m2, version, h2, h⟩ := run_bind_some h
  obtain ⟨m3, checksum, h3, h⟩ := run_bind_some h
  obtain ⟨m4, res, h4, h⟩ := run_bind_some h
  obtain ⟨m5, serial, h5, h⟩ := run_bind_some h
  obtain ⟨m6, crc, h6, h⟩ := run_bind_some h
  obtain ⟨m7, crclen, h7, h⟩ := run_bind_some h
  obtain ⟨m8, tagloc, h8, h⟩ := run_bind_some h
  unfold FileTagID.parse at h1
  obtain ⟨m0, v0, hA, hB⟩ := run_bind_some h1
  have lA := u16P_len hA
  have lB := fileTagIdOf_keeps hB
  have l2 := u16P_len h2
  have l3 := u8P_len h3
  have l4 := u8P_len h4
  have l5 := u16P_len h5
  have l6 := u16P_len h6
  have l7 := u16P_len h7
  have l8 := u32P_len h8
  have lr := pure_len h
  subst lB lr
  omega

theorem LBAddr_len {i r : List Nat} {a : LBAddr}
    (h : LBAddr.parse.run i = some (r, a)) : i.length = 6 + r.length := by
  unfold LBAddr.parse at h
  obtain ⟨m1, lbn, h1, h⟩ := run_bind_some h
  obtain ⟨m2, pr, h2, h⟩ := run_bind_some h
  have l1 := u32P_len h1
  have l2 := u16P_len h2
  have lr := pure_len h
  subst lr
  omega

theorem LongAD_len {i r : List Nat} {a : LongAD}
    (h : LongAD.parse_le.run i = some (r, a)) : i.length = 16 + r.length := by
  unfold LongAD.parse_le at h
  obtain ⟨m1, len, h1, h⟩ := run_bind_some h
  obtain ⟨m2, loc, h2, h⟩ := run_bind_some h
  obtain ⟨m3, iu, h3, h⟩ := run_bind_some h
  have l1 := u32P_len h1
  have l2 := LBAddr_len h2
  have l3 := (takeP_len h3).1
  have lr := pure_len h
  subst lr
  omega

/-- Round-trip of the little-endian u32 encoding through the u32 parser. -/
theorem u32P_le32 (v : Nat) (r : List Nat) (h : v < 4294967296) :
    u32P.run (le32 v ++ r) = some (r, v) := by
  simp only [u32P, le32, List.cons_append, List.nil_append]
  congr 1
  congr 1
  omega

/-- Claim C1: for an ICB whose ICB-tag flags select the reserved alloc
type 3, `ICBFlags::get_alloc_type` does return the "unknown alloc type."
error, but `ICB::get_alloc_descs` unwraps that error and aborts the
process instead of propagating it. -/
theorem c1_unknown_alloc_type_aborts :
    c1ICB.icb_tag.flags.get_alloc_type = RRes.err UErr.unknownAllocType
    ∧ c1ICB.get_alloc_descs = RRes.abort :=
  ⟨rfl, rfl⟩

/-- Claim C3 (counterexample): the ICB decoder accepts a block whose
decoded tag id is FSD (not an ICB record kind) and decodes its body, so
the claim's tag-mismatch guarantee does not hold for the ICB decoder. -/
theorem c3_counterexample :
    (ICB.parse.run c3bytes).map (fun p => p.2.tag.tag_id) = some FileTagID.FSD := by
  rfl

/-- Claim C3 (amended): the expected-kind check holds for the decoders
that carry a nom `Verify` on their tag (PVD, PD, LVD, FSD, FID, AED):
whenever the leading tag parses to a tag id different from the decoder's
kind, the decoder fails and never decodes the record body.  The ICB
decoder has no such check. -/
theorem c3_tag_mismatch_rejected :
    (∀ i r t, Tag.parse.run i = some (r, t) → t.tag_id ≠ TagID.PVD →
      PVD.parse.run i = none)
    ∧ (∀ i r t, Tag.parse.run i = some (r, t) → t.tag_id ≠ TagID.PD →
      PD.parse.run i = none)
    ∧ (∀ i r t, Tag.parse.run i = some (r, t) → t.tag_id ≠ TagID.LVD →
      LVD.parse.run i = none)
    ∧ (∀ i r t, FileTag.parse.run i = some (r, t) → t.tag_id ≠ FileTagID.FSD →
      FSD.parse.run i = none)
    ∧ (∀ i r t, FileTag.parse.run i = some (r, t) → t.tag_id ≠ FileTagID.FID →
      FID.parse.run i = none)
    ∧ (∀ i r t, FileTag.parse.run i = some (r, t) → t.tag_id ≠ FileTagID.AED →
      AED.parse.run i = none) := by
  refine ⟨?_, ?_, ?_, ?_, ?_, ?_⟩ <;>
    · intro i r t h1 hne
      simp only [PVD.parse, PD.parse, LVD.parse, FSD.parse, FID.parse, AED.parse,
        run_bind, h1, run_pverify_neg _ hne]

/-- Claim C3 (witness for the amended theorem): concrete mismatched
blocks are rejected by each checked decoder. -/
theorem c3_tag_mismatch_witness :
    PVD.parse.run pdBlock = none
    ∧ PD.parse.run (pvdBlock 1) = none
    ∧ LVD.parse.run pdBlock = none
    ∧ FSD.parse.run (mkTagBytes 8) = none
    ∧ FID.parse.run (mkTagBytes 8) = none
    ∧ AED.parse.run (mkTagBytes 8) = none :=
  ⟨c3_tag_mismatch_rejected.1 pdBlock (zeros 496) (zTag .PD) (by rfl) (by decide),
   c3_tag_mismatch_rejected.2.1 (pvdBlock 1) (le32 1 ++ zeros 492) (zTag .PVD)
     (by rfl) (by decide),
   c3_tag_mismatch_rejected.2.2.1 pdBlock (zeros 496) (zTag .PD) (by rfl) (by decide),
   c3_tag_mismatch_rejected.2.2.2.1 (mkTagBytes 8) [] (zFTag .TD) (by rfl) (by decide),
   c3_tag_mismatch_rejected.2.2.2.2.1 (mkTagBytes 8) [] (zFTag .TD) (by rfl) (by decide),
   c3_tag_mismatch_rejected.2.2.2.2.2 (mkTagBytes 8) [] (zFTag .TD) (by rfl) (by decide)⟩

/-- Claim C4 (counterexample): with partition start 0 and no metadata
offset, an allocation descriptor at block 2097152 resolves to absolute
byte offset 0 (the u32 product wraps), not the exact product 2^32. -/
theorem c4_counterexample :
    (sessionA.alloc_desc_to_offset_len (AllocDesc.SHORT ⟨100, 2097152, 0⟩)).1 = 0
    ∧ (2097152 + sessionA.part_desc.part_start + metaOr0 sessionA) * 2048 = 4294967296
    ∧ (0 : Nat) ≠ 4294967296 := by
  refine ⟨rfl, rfl, by decide⟩

/-- Claim C4 (amended): `alloc_desc_to_offset_len` returns
`(partition_start + raw_lbn + metadata_offset_or_0) * 2048` reduced
modulo 2^32 (u32 arithmetic); the value is the exact product whenever
that product fits in a u32; and resolution is associative: folding in the
metadata offset and the partition start one at a time equals adding their
(u32) sum in one step. -/
theorem c4_offset_formula (u : UDF) (ad : AllocDesc) :
    u.alloc_desc_to_offset_len ad =
      ((ad.lbnOf + u.part_desc.part_start + metaOr0 u) * 2048 % 4294967296, ad.lenOf)
    ∧ ((ad.lbnOf + u.part_desc.part_start + metaOr0 u) * 2048 < 4294967296 →
      (u.alloc_desc_to_offset_len ad).1 =
        (ad.lbnOf + u.part_desc.part_start + metaOr0 u) * 2048)
    ∧ (u.alloc_desc_to_offset_len ad).1 =
      (ad.lbnOf + (u.part_desc.part_start + metaOr0 u) % 4294967296) * 2048 % 4294967296 := by
  rcases hm : u.meta_file_offset with _ | m <;>
    simp only [UDF.alloc_desc_to_offset_len, metaAdjust, metaOr0, BLOCKSIZE, hm,
      Prod.mk.injEq, and_true] <;>
    refine ⟨?_, fun h => ?_, ?_⟩ <;>
    omega

/-- Claim C4 (witness): at small concrete values the returned offset is
the exact product. -/
theorem c4_offset_witness :
    (sessionA.alloc_desc_to_offset_len (AllocDesc.SHORT ⟨100, 5, 0⟩)).1 =
      ((AllocDesc.SHORT ⟨100, 5, 0⟩).lbnOf + sessionA.part_desc.part_start
        + metaOr0 sessionA) * 2048 :=
  (c4_offset_formula sessionA (AllocDesc.SHORT ⟨100, 5, 0⟩)).2.1 (by decide)

/-- Claim C6: the u32 length field of a Short allocation descriptor is
split by `ShortAD::parse_le` into the extent type (bits 31..30) and the
byte length (bits 29..0); reassembling `type * 2^30 + length` recovers
the original value, the type is below 4, and the length is below 2^30. -/
theorem c6_ad_type_length_split (v pos : Nat) (hv : v < 4294967296)
    (hp : pos < 4294967296) :
    ShortAD.parse_le.run (le32 v ++ le32 pos) =
      some ([], ⟨bitRange 29 0 v, pos, bitRange 31 30 v⟩)
    ∧ bitRange 31 30 v * 1073741824 + bitRange 29 0 v = v
    ∧ bitRange 31 30 v < 4
    ∧ bitRange 29 0 v < 1073741824 := by
  have h1 := u32P_le32 v (le32 pos) hv
  have h2 := u32P_le32 pos [] hp
  rw [List.append_nil] at h2
  refine ⟨?_, ?_, ?_, ?_⟩
  · simp only [ShortAD.parse_le, run_bind, h1, h2, run_pure]
  · simp only [bitRange]; norm_num; omega
  · simp only [bitRange]; norm_num; omega
  · simp only [bitRange]; norm_num; omega

/-- Claim C6 (witness): the split at the concrete value 0xC0000005
(type 3, length 5). -/
theorem c6_split_witness :
    ShortAD.parse_le.run (le32 3221225477 ++ le32 7) =
      some ([], ⟨bitRange 29 0 3221225477, 7, bitRange 31 30 3221225477⟩)
    ∧ bitRange 31 30 3221225477 * 1073741824 + bitRange 29 0 3221225477 = 3221225477
    ∧ bitRange 31 30 3221225477 < 4
    ∧ bitRange 29 0 3221225477 < 1073741824 :=
  c6_ad_type_length_split 3221225477 7 (by decide) (by decide)

/-- Claim C7: the FID padding count defined by the source's nom `Count`
expression rounds the 38-byte fixed part plus the two variable parts up
to a multiple of 4 (so it is below 4 and makes the total length a
multiple of 4), and a successfully decoded FID consumes exactly
`38 + impl_len + fid_len + padding` input bytes. -/
theorem c7_fid_padding :
    (∀ f i, (f + i + 38 + fidPad f i) % 4 = 0 ∧ fidPad f i < 4)
    ∧ (∀ input r fid, FID.parse.run input = some (r, fid) →
      fid.impl_use.length = fid.impl_len ∧ fid.fid.length = fid.fid_len ∧
      fid.padding.length = fidPad fid.fid_len fid.impl_len ∧
      input.length = 38 + fid.impl_len + fid.fid_len
        + fidPad fid.fid_len fid.impl_len + r.length) := by
  constructor
  · intro f i
    unfold fidPad
    omega
  · intro input r fid h
    unfold FID.parse at h
    obtain ⟨m1, tag, h1, h⟩ := run_bind_some h
    obtain ⟨m2, u1, hv, h⟩ := run_bind_some h
    obtain ⟨m3, version, h3, h⟩ := run_bind_some h
    obtain ⟨m4, file_bits, h4, h⟩ := run_bind_some h
    obtain ⟨m5, fid_len, h5, h⟩ := run_bind_some h
    obtain ⟨m6, icb, h6, h⟩ := run_bind_some h
    obtain ⟨m7, impl_len, h7, h⟩ := run_bind_some h
    obtain ⟨m8, impl_use, h8, h⟩ := run_bind_some h
    obtain ⟨m9, fidv, h9, h⟩ := run_bind_some h
    obtain ⟨m10, padding, h10, h⟩ := run_bind_some h
    simp only [run_pure, Option.some.injEq, Prod.mk.injEq] at h
    obtain ⟨hr, hfid⟩ := h
    subst hr
    subst hfid
    have l1 := FileTag_len h1
    have lv := pverify_len hv
    have l3 := u16P_len h3
    have l4 := u8P_len h4
    have l5 := u8P_len h5
    have l6 := LongAD_len h6
    have l7 := u16P_len h7
    have l8 := takeP_len h8
    have l9 := takeP_len h9
    have l10 := takeP_len h10
    subst lv
    refine ⟨l8.2, l9.2, l10.2, ?_⟩
    show input.length = 38 + impl_len + fid_len + fidPad fid_len impl_len + m10.length
    omega

/-- Claim C7 (witness): a concrete 40-byte FID record with one name byte
and no implementation-use bytes decodes with one padding byte and the
stated length equation. -/
theorem c7_fid_padding_witness :
    c7bytes.length = 38 + 0 + 1 + fidPad 1 0 + List.length ([] : List Nat) := by
  have h := c7_fid_padding.2 c7bytes []
    ⟨zFTag .FID, 0, 0, 1, zLongAD, 0, [], [65], [0]⟩ (by rfl)
  exact h.2.2.2

/-- Claim C8: `get_root_dir` fails with the multiple-extents error
whenever the successfully decoded root ICB carries more than one
allocation descriptor, and returns the decoded root ICB when it carries
at most one. -/
theorem c8_root_dir_single_extent (disk : Nat → List Nat) (u : UDF)
    (r1 : List Nat) (fsd_ext : LongAD) (r2 : List Nat) (fsd : FSD)
    (r3 : List Nat) (root : ICB) (descs : List AllocDesc)
    (h1 : LongAD.parse_le.run u.logical_vol_desc.lv_contents_use = some (r1, fsd_ext))
    (h2 : FSD.parse.run (disk (rootFsdLoc u fsd_ext)) = some (r2, fsd))
    (h3 : ICB.parse.run (disk (rootIcbLoc u fsd)) = some (r3, root))
    (h4 : root.get_alloc_descs = RRes.ok descs) :
    (1 < descs.length → UDF.get_root_dir disk u = RRes.err UErr.multipleExtents)
    ∧ (descs.length ≤ 1 → UDF.get_root_dir disk u = RRes.ok root) := by
  simp only [UDF.get_root_dir, h1, h2, h3, h4]
  constructor
  · intro h
    rw [if_pos h]
  · intro h
    rw [if_neg (by omega)]

/-- Claim C8 (witness): on a concrete image whose root ICB carries two
Short allocation descriptors, `get_root_dir` fails with the
multiple-extents error. -/
theorem c8_root_dir_witness :
    UDF.get_root_dir c8disk sessionA = RRes.err UErr.multipleExtents :=
  (c8_root_dir_single_extent c8disk sessionA _ _ _ _ _ _ _
    (by rfl) (by rfl) (by rfl) (by rfl)).1 (by decide)

/-- Claim C9: the ICB body variant is determined entirely by the ICB
tag's file type: `TE` yields the empty Terminal variant consuming no
bytes; the ten file-entry types decode a full File Entry (the result is
exactly `FileEntry::parse` re-tagged as the File variant); every other
file type fails. -/
theorem c9_icb_body_dispatch :
    (∀ i, (ICBBody.parse_le FileType.TE).run i = some (i, ICBBody.Terminal))
    ∧ (∀ i, (ICBBody.parse_le FileType.UNK).run i =
      (FileEntry.parse.run i).map (fun e => (e.1, ICBBody.File e.2)))
    ∧ (∀ i, (ICBBody.parse_le FileType.DIR).run i =
      (FileEntry.parse.run i).map (fun e => (e.1, ICBBody.File e.2)))
    ∧ (∀ i, (ICBBody.parse_le FileType.BYTES).run i =
      (FileEntry.parse.run i).map (fun e => (e.1, ICBBody.File e.2)))
    ∧ (∀ i, (ICBBody.parse_le FileType.BLOCKDEV).run i =
      (FileEntry.parse.run i).map (fun e => (e.1, ICBBody.File e.2)))
    ∧ (∀ i, (ICBBody.parse_le FileType.CHARDEV).run i =
      (FileEntry.parse.run i).map (fun e => (e.1, ICBBody.File e.2)))
    ∧ (∀ i, (ICBBody.parse_le FileType.EXTATTR).run i =
      (FileEntry.parse.run i).map (fun e => (e.1, ICBBody.File e.2)))
    ∧ (∀ i, (ICBBody.parse_le FileType.FIFO).run i =
      (FileEntry.parse.run i).map (fun e => (e.1, ICBBody.File e.2)))
    ∧ (∀ i, (ICBBody.parse_le FileType.SOCK).run i =
      (FileEntry.parse.run i).map (fun e => (e.1, ICBBody.File e.2)))
    ∧ (∀ i, (ICBBody.parse_le FileType.METAMAIN).run i =
      (FileEntry.parse.run i).map (fun e => (e.1, ICBBody.File e.2)))
    ∧ (∀ i, (ICBBody.parse_le FileType.METAMIRROR).run i =
      (FileEntry.parse.run i).map (fun e => (e.1, ICBBody.File e.2)))
    ∧ (∀ i, (ICBBody.parse_le FileType.USE).run i = none)
    ∧ (∀ i, (ICBBody.parse_le FileType.PIE).run i = none)
    ∧ (∀ i, (ICBBody.parse_le FileType.IE).run i = none)
    ∧ (∀ i, (ICBBody.parse_le FileType.SYMLINK).run i = none)
    ∧ (∀ i, (ICBBody.parse_le FileType.STREAMDIR).run i = none) :=
  ⟨fun _ => rfl, fun _ => rfl, fun _ => rfl, fun _ => rfl, fun _ => rfl,
   fun _ => rfl, fun _ => rfl, fun _ => rfl, fun _ => rfl, fun _ => rfl,
   fun _ => rfl, fun _ => rfl, fun _ => rfl, fun _ => rfl, fun _ => rfl,
   fun _ => rfl⟩

/-- Claim C10 (counterexample): for an unrecognized partition-map entry
with length byte 1, the payload count `len as usize - 2` underflows: it
wraps to 2^64 - 1 instead of being at most the length byte. -/
theorem c10_counterexample :
    pmUnkCount 1 = 18446744073709551615 ∧ 1 < pmUnkCount 1 := by
  constructor <;> decide

/-- Claim C10 (amended): partition-map decoding is total and returns a
value or a parse error (release-build wrapping semantics; a debug build
aborts on the same inputs); for a length byte of at least 2 the payload
count is the intended `len - 2`, but for a length byte below 2 it wraps
past 2^64 - 2 and the parse of the unrecognized variant necessarily
fails. -/
theorem c10_unk_partmap_underflow :
    (∀ len, 2 ≤ len → len < 18446744073709551616 → pmUnkCount len = len - 2)
    ∧ (∀ len rest, len < 2 → rest.length < 18446744073709551614 →
      (PartMapType.parse 0).run (len :: rest) = none) := by
  constructor
  · intro len h1 h2
    unfold pmUnkCount
    omega
  · intro len rest h1 h2
    rcases (show len = 0 ∨ len = 1 from by omega) with rfl | rfl
    · simp only [PartMapType.parse, run_bind, u8P, run_takeP]
      rw [if_neg (show ¬ (pmUnkCount 0 ≤ rest.length) from by unfold pmUnkCount; omega)]
    · simp only [PartMapType.parse, run_bind, u8P, run_takeP]
      rw [if_neg (show ¬ (pmUnkCount 1 ≤ rest.length) from by unfold pmUnkCount; omega)]

/-- Claim C10 (witness): decoding the unrecognized-variant bytes with
length byte 1 and empty payload fails with a parse error. -/
theorem c10_unk_partmap_witness :
    (PartMapType.parse 0).run (1 :: []) = none :=
  c10_unk_partmap_underflow.2 1 [] (by decide) (by decide)

/-- Claim C2 (counterexample): in a VDS holding two PVDs (vds_num 1 at
sector 300, then vds_num 2 at sector 301), session construction retains
the second one, not the first. -/
theorem c2_counterexample :
    (PVD.parse.run (c2disk 300)).map (fun p => p.2.vds_num) = some 1
    ∧ (match UDF.new c2disk with
      | RRes.ok u => u.primary_vol_desc.vds_num
      | _ => 0) = 2 :=
  ⟨rfl, rfl⟩

/-- An uninterrupted VDS scan visits exactly its sector list, ends in a
success state, and composes with any continuation of the sector list. -/
theorem vdsLoop_scan_ok (disk : Nat → List Nat) :
    ∀ ns st, scanOK disk ns →
      ∃ st₁, vdsLoop disk ns st = (ns, RRes.ok st₁) ∧
        ∀ ms, vdsLoop disk (ns ++ ms) st =
          (ns ++ (vdsLoop disk ms st₁).1, (vdsLoop disk ms st₁).2) := by
  intro ns
  induction ns with
  | nil =>
    intro st _
    exact ⟨st, rfl, fun ms => by simp only [List.nil_append]⟩
  | cons n ns ih =>
    intro st hok
    obtain ⟨r, t, htag, hTD, hVD, hPVD, hPD, hLVD⟩ := hok n (List.mem_cons_self n ns)
    have hok' : scanOK disk ns := fun m hm => hok m (List.mem_cons_of_mem n hm)
    obtain ⟨tid, tv, tc, trs, tse, tdc, tdl, tloc⟩ := t
    cases tid with
    | TD => exact absurd rfl hTD
    | VD => exact absurd rfl hVD
    | PVD =>
      obtain ⟨rp, p, hp⟩ := hPVD rfl
      obtain ⟨st₁, hfold, happ⟩ := ih { st with oPvd := some p } hok'
      refine ⟨st₁, ?_, fun ms => ?_⟩
      · simp only [vdsLoop, htag, hp, hfold]
      · simp only [List.cons_append, List.append_eq, vdsLoop, htag, hp, happ ms]
    | PD =>
      obtain ⟨rp, p, hp, hutf⟩ := hPD rfl
      obtain ⟨st₁, hfold, happ⟩ := ih { st with oPd := some p } hok'
      refine ⟨st₁, ?_, fun ms => ?_⟩
      · simp only [vdsLoop, htag, hp, hutf, if_true, hfold]
      · simp only [List.cons_append, List.append_eq, vdsLoop, htag, hp, hutf, if_true, happ ms]
    | LVD =>
      obtain ⟨rp, p, hp⟩ := hLVD rfl
      obtain ⟨st₁, hfold, happ⟩ := ih { st with oLvd := some p } hok'
      refine ⟨st₁, ?_, fun ms => ?_⟩
      · simp only [vdsLoop, htag, hp, hfold]
      · simp only [List.cons_append, List.append_eq, vdsLoop, htag, hp, happ ms]
    | UNK =>
      obtain ⟨st₁, hfold, happ⟩ := ih st hok'
      refine ⟨st₁, ?_, fun ms => ?_⟩
      · simp only [vdsLoop, htag, hfold]
      · simp only [List.cons_append, List.append_eq, vdsLoop, htag, happ ms]
    | AVD =>
      obtain ⟨st₁, hfold, happ⟩ := ih st hok'
      refine ⟨st₁, ?_, fun ms => ?_⟩
      · simp only [vdsLoop, htag, hfold]
      · simp only [List.cons_append, List.append_eq, vdsLoop, htag, happ ms]
    | IUVD =>
      obtain ⟨st₁, hfold, happ⟩ := ih st hok'
      refine ⟨st₁, ?_, fun ms => ?_⟩
      · simp only [vdsLoop, htag, hfold]
      · simp only [List.cons_append, List.append_eq, vdsLoop, htag, happ ms]
    | USD =>
      obtain ⟨st₁, hfold, happ⟩ := ih st hok'
      refine ⟨st₁, ?_, fun ms => ?_⟩
      · simp only [vdsLoop, htag, hfold]
      · simp only [List.cons_append, List.append_eq, vdsLoop, htag, happ ms]
    | LVID =>
      obtain ⟨st₁, hfold, happ⟩ := ih st hok'
      refine ⟨st₁, ?_, fun ms => ?_⟩
      · simp only [vdsLoop, htag, hfold]
      · simp only [List.cons_append, List.append_eq, vdsLoop, htag, happ ms]

/-- Claim C2 (amended): the VDS scan of session construction retains the
LAST PVD (respectively PD, LVD) seen before the scan stops, not the
first: after any uninterrupted prefix of the scan, processing one more
sector holding a PVD (PD, LVD) overwrites the retained descriptor with
that one, whatever was retained before. -/
theorem c2_vds_retains_last :
    (∀ (disk : Nat → List Nat) ns st st₁ m r t rp p,
      scanOK disk ns → vdsLoop disk ns st = (ns, RRes.ok st₁) →
      Tag.parse.run (disk m) = some (r, t) → t.tag_id = TagID.PVD →
      PVD.parse.run (disk m) = some (rp, p) →
      (vdsLoop disk (ns ++ [m]) st).2 = RRes.ok ⟨some p, st₁.oPd, st₁.oLvd⟩)
    ∧ (∀ (disk : Nat → List Nat) ns st st₁ m r t rp p,
      scanOK disk ns → vdsLoop disk ns st = (ns, RRes.ok st₁) →
      Tag.parse.run (disk m) = some (r, t) → t.tag_id = TagID.PD →
      PD.parse.run (disk m) = some (rp, p) → utf8Ok p.part_cont.ident = true →
      (vdsLoop disk (ns ++ [m]) st).2 = RRes.ok ⟨st₁.oPvd, some p, st₁.oLvd⟩)
    ∧ (∀ (disk : Nat → List Nat) ns st st₁ m r t rp p,
      scanOK disk ns → vdsLoop disk ns st = (ns, RRes.ok st₁) →
      Tag.parse.run (disk m) = some (r, t) → t.tag_id = TagID.LVD →
      LVD.parse.run (disk m) = some (rp, p) →
      (vdsLoop disk (ns ++ [m]) st).2 = RRes.ok ⟨st₁.oPvd, st₁.oPd, some p⟩) := by
  refine ⟨?_, ?_, ?_⟩
  · intro disk ns st st₁ m r t rp p hok hloop htag hid hp
    obtain ⟨st₂, hfold, happ⟩ := vdsLoop_scan_ok disk ns st hok
    have hst : st₂ = st₁ := by
      have h2 := congrArg Prod.snd (hfold.symm.trans hloop)
      simpa using h2
    subst hst
    rw [happ [m]]
    simp only [vdsLoop, htag, hid, hp]
  · intro disk ns st st₁ m r t rp p hok hloop htag hid hp hutf
    obtain ⟨st₂, hfold, happ⟩ := vdsLoop_scan_ok disk ns st hok
    have hst : st₂ = st₁ := by
      have h2 := congrArg Prod.snd (hfold.symm.trans hloop)
      simpa using h2
    subst hst
    rw [happ [m]]
    simp only [vdsLoop, htag, hid, hp, hutf, if_true]
  · intro disk ns st st₁ m r t rp p hok hloop htag hid hp
    obtain ⟨st₂, hfold, happ⟩ := vdsLoop_scan_ok disk ns st hok
    have hst : st₂ = st₁ := by
      have h2 := congrArg Prod.snd (hfold.symm.trans hloop)
      simpa using h2
    subst hst
    rw [happ [m]]
    simp only [vdsLoop, htag, hid, hp]

/-- Claim C2 (witness for the amended theorem): scanning sector 300
(PVD with vds_num 1) and then sector 301 (PVD with vds_num 2) retains
the second PVD. -/
theorem c2_vds_retains_last_witness :
    (vdsLoop c2disk ([300] ++ [301]) ⟨none, none, none⟩).2 =
      RRes.ok ⟨some (pvdZ 2), none, none⟩ :=
  c2_vds_retains_last.1 c2disk [300] ⟨none, none, none⟩ ⟨some (pvdZ 1), none, none⟩
    301 (le32 2 ++ zeros 492) (zTag .PVD) [] (pvdZ 2)
    (by
      intro n hn
      simp only [List.mem_singleton] at hn
      subst hn
      exact ⟨le32 1 ++ zeros 492, zTag .PVD, by rfl, by decide, by decide,
        fun _ => ⟨[], pvdZ 1, by rfl⟩,
        fun hx => absurd hx (by decide),
        fun hx => absurd hx (by decide)⟩)
    (by rfl) (by rfl) (by rfl) (by rfl)

/-- Claim C5 (counterexample): with a main-VDS extent of length field 3
at sector 300 and no terminator in sight, the scan visits the three
sectors 300, 301, 302 (the byte length is used directly as a sector
count), not the single sector that one block per 2048 extent bytes would
give. -/
theorem c5_counterexample :
    (vdsLoop c5disk (vdsRange 300 3) ⟨none, none, none⟩).1 = [300, 301, 302]
    ∧ [300, 301, 302] ≠ List.range' 300 ((3 + 2047) / 2048) := by
  constructor
  · rfl
  · decide

/-- Claim C5 (amended): over an extent (len, loc) with no terminator and
no failing block, the VDS reader visits exactly the sectors
loc, loc+1, ..., loc+len-1: the extent's byte length is used directly as
the number of sectors read (one block per unit of `len`), not
ceil(len / 2048). -/
theorem c5_vds_visits_len_sectors (disk : Nat → List Nat) (loc len : Nat)
    (st : VDSState) (hlt : loc + len < 4294967296)
    (hok : scanOK disk (List.range' loc len)) :
    (vdsLoop disk (vdsRange loc len) st).1 = List.range' loc len := by
  have hr : vdsRange loc len = List.range' loc len := by
    unfold vdsRange
    rw [Nat.mod_eq_of_lt hlt]
    congr 1
    omega
  rw [hr]
  obtain ⟨st₁, hfold, _⟩ := vdsLoop_scan_ok disk (List.range' loc len) st hok
  rw [hfold]

/-- Claim C5 (witness for the amended theorem): the scan over the
three-sector extent at 300 visits exactly sectors 300, 301, 302. -/
theorem c5_vds_visits_witness :
    (vdsLoop c5disk (vdsRange 300 3) ⟨none, none, none⟩).1 = List.range' 300 3 :=
  c5_vds_visits_len_sectors c5disk 300 3 ⟨none, none, none⟩ (by decide)
    (by
      intro n hn
      have hn2 : 300 ≤ n ∧ n < 303 := by
        simpa using hn
      have hn' : n = 300 ∨ n = 301 ∨ n = 302 := by omega
      rcases hn' with rfl | rfl | rfl <;>
        exact ⟨[], zTag .UNK, by rfl, by decide, by decide,
          fun hx => absurd hx (by decide),
          fun hx => absurd hx (by decide),
          fun hx => absurd hx (by decide)⟩)
